import Mathlib

/-!
Verification of the swipp parameterization engine and the DispersionSuite
container.  The Parameter and Parameterization implementation files are not
part of the checked sources (only their unit tests are), so those operations
are modelled from the specification, with the unit-test assertions in
src/test/test_parameter.py and src/test/test_parameterization.py taken as
the authoritative behavioural contract wherever the two disagree (the spec
itself declares the reference sequences authoritative, spec section 9).
DispersionSuite is embedded directly from src/swipp/dispersionsuite.py.
-/

/-- Python exception kinds raised by the validators and containers. -/
inductive PyErr where
  | typeError
  | valueError
  | indexError
deriving DecidableEq, Repr

/-- Modelled from the spec: the runtime values the validators receive.
Python scalars relevant to the validators: int, float, bool, str, tuple.
Rationals stand in for floats (all constants involved are exact decimals). -/
inductive PyVal where
  | int (n : ℤ)
  | float (q : ℚ)
  | bool (b : Bool)
  | str (s : String)
  | tuple (elems : List PyVal)

/-- A value counts as a real number when it is an int or a float; booleans
are explicitly excluded (spec section 4.1, boolean-vs-numeric note). -/
def PyVal.isRealNumber : PyVal → Bool
  | .int _ => true
  | .float _ => true
  | _ => false

/-- Numeric content of a value; junk outside the real-number cases. -/
def PyVal.toQ : PyVal → ℚ
  | .int n => (n : ℚ)
  | .float q => q
  | _ => 0

/-- Whether the value is a plain (non-boolean) integer. -/
def PyVal.isInt : PyVal → Bool
  | .int _ => true
  | _ => false

/-- Modelled from the spec: Parameter.check_wavelengths (section 4.1).
Accepts two positive numeric values and reorders them ascending; TypeError
if either value is not a real number (booleans rejected), ValueError if
either is nonpositive. -/
def check_wavelengths (wmin wmax : PyVal) : Except PyErr (ℚ × ℚ) :=
  if ¬ (wmin.isRealNumber && wmax.isRealNumber) then
    .error .typeError
  else if wmin.toQ ≤ 0 ∨ wmax.toQ ≤ 0 then
    .error .valueError
  else
    .ok (min wmin.toQ wmax.toQ, max wmin.toQ wmax.toQ)

/-- Modelled from the spec: the layer-count check (section 4.1).  TypeError
unless the value is a non-boolean integer, ValueError unless it is at
least 1. -/
def check_nlayers (v : PyVal) : Except PyErr ℤ :=
  match v with
  | .int n => if n < 1 then .error .valueError else .ok n
  | _ => .error .typeError

/-- Modelled from the spec: the positive-scalar check used for thickness and
fixed values (section 4.1).  TypeError on non-numeric or boolean input,
ValueError on nonpositive input. -/
def check_positive (v : PyVal) : Except PyErr ℚ :=
  if ¬ v.isRealNumber then .error .typeError
  else if v.toQ ≤ 0 then .error .valueError
  else .ok v.toQ

/-- Modelled from the spec: the layering-ratio check (section 4.1).
TypeError on non-numeric or boolean input, ValueError on values at most 1
since a ratio of at most 1 cannot produce growth. -/
def check_lr (v : PyVal) : Except PyErr ℚ :=
  if ¬ v.isRealNumber then .error .typeError
  else if v.toQ ≤ 1 then .error .valueError
  else .ok v.toQ

/-- Modelled from the spec: the depth-factor check (section 4.1).  TypeError
on non-numeric or boolean input. -/
def check_depth_factor (v : PyVal) : Except PyErr ℚ :=
  if ¬ v.isRealNumber then .error .typeError
  else .ok v.toQ

/-- Modelled from the spec: Parameter.depth_ftl (fixed thickness layers,
section 4.1).  Validates the layer count and the thickness, then returns
identical minimum and maximum thickness lists. -/
def depth_ftl (nlayers thickness : PyVal) : Except PyErr (List ℚ × List ℚ) :=
  match check_nlayers nlayers with
  | .error e => .error e
  | .ok n =>
    match check_positive thickness with
    | .error e => .error e
    | .ok t => .ok (List.replicate n.toNat t, List.replicate n.toNat t)

/-- Modelled from the spec: the boundary loop of Parameter.depth_lr
(section 4.1).  Starting from the first potential layer bottom wmin/2, each
further bottom adds a thickness grown geometrically by the layering ratio
(equivalently b <- b * lr + wmin / 2), while the previous bottom is still
above dmax = wmax / depth_factor.  Returns the bottoms produced, the first
one at or below dmax last; none when the fuel is exhausted. -/
def lrBottoms (lr dmax halfWmin : ℚ) : ℕ → ℚ → Option (List ℚ)
  | 0, _ => none
  | fuel + 1, b =>
    if b < dmax then
      (lrBottoms lr dmax halfWmin fuel (b * lr + halfWmin)).map (b :: ·)
    else
      some [b]

/-- Modelled from the spec: Parameter.depth_lr (layering ratio,
section 4.1), the geometric layering-ratio discretization of Cox and
Teague.  The spec prose sketches the recurrence only loosely; the spec
(sections 4.1 and 9) declares the published reference sequences of
test_depth_lr the authoritative contract, and this definition reproduces
them: minimum depths start at wmin/3, maximum depths at wmin/2, bottoms
grow geometrically, and the profile is closed by a half-space layer at
dmax = wmax/depth_factor whose maximum depth is dmax + 1.  When the gap
from the last minimum depth to dmax is smaller than the previous layer
thickness the last layer is replaced by the half-space, otherwise the
half-space is appended as one more layer. -/
def depth_lr (wmin wmax lr depthFactor : ℚ) (fuel : ℕ) :
    Option (List ℚ × List ℚ) :=
  let dmax := wmax / depthFactor
  (lrBottoms lr dmax (wmin / 2) fuel (wmin / 2)).map (fun bottoms =>
    let lay_min := wmin / 3 :: bottoms.dropLast
    let lastMin := lay_min.getLastD 0
    let sndMin := lay_min.dropLast.getLastD 0
    if 2 ≤ lay_min.length ∧ dmax - lastMin < lastMin - sndMin then
      (lay_min.dropLast ++ [dmax], bottoms.dropLast.dropLast ++ [dmax, dmax + 1])
    else
      (lay_min ++ [dmax], bottoms.dropLast ++ [dmax, dmax + 1]))

/-- Elementwise closeness of two rational lists within an absolute
tolerance; false when the lengths differ.  Mirrors the tolerance check of
test_depth_lr (delta = 0.051). -/
def closeList (tol : ℚ) : List ℚ → List ℚ → Bool
  | [], [] => true
  | a :: as, b :: bs =>
    if b - tol ≤ a ∧ a ≤ b + tol then closeList tol as bs else false
  | _, _ => false

/-- Reference minimum-depth sequence for lr = 1.4 from test_depth_lr
(src/test/test_parameter.py). -/
def refLrMin14 : List ℚ :=
  [3/10, 1/2, 6/5, 11/5, 18/5, 11/2, 41/5, 119/10, 86/5, 123/5, 349/10, 50]

/-- Reference maximum-depth sequence for lr = 1.4 from test_depth_lr. -/
def refLrMax14 : List ℚ :=
  [1/2, 6/5, 11/5, 18/5, 11/2, 41/5, 119/10, 86/5, 123/5, 349/10, 50, 51]

/-- Reference minimum-depth sequence for lr = 1.5 from test_depth_lr. -/
def refLrMin15 : List ℚ :=
  [3/10, 1/2, 13/10, 12/5, 41/10, 33/5, 52/5, 161/10, 123/5, 50]

/-- Reference maximum-depth sequence for lr = 1.5 from test_depth_lr. -/
def refLrMax15 : List ℚ :=
  [1/2, 13/10, 12/5, 41/10, 33/5, 52/5, 161/10, 123/5, 50, 51]

/-- Reference minimum-depth sequence for lr = 2.0 from test_depth_lr. -/
def refLrMin20 : List ℚ := [3/10, 1/2, 3/2, 7/2, 15/2, 31/2, 63/2, 50]

/-- Reference maximum-depth sequence for lr = 2.0 from test_depth_lr. -/
def refLrMax20 : List ℚ := [1/2, 3/2, 7/2, 15/2, 31/2, 63/2, 50, 51]

/-- Reference minimum-depth sequence for lr = 3.0 from test_depth_lr. -/
def refLrMin30 : List ℚ := [3/10, 1/2, 2, 13/2, 20, 50]

/-- Reference maximum-depth sequence for lr = 3.0 from test_depth_lr. -/
def refLrMax30 : List ℚ := [1/2, 2, 13/2, 20, 50, 51]

/-- Reference minimum-depth sequence for lr = 5.0 from test_depth_lr. -/
def refLrMin50 : List ℚ := [3/10, 1/2, 3, 31/2, 50]

/-- Reference maximum-depth sequence for lr = 5.0 from test_depth_lr. -/
def refLrMax50 : List ℚ := [1/2, 3, 31/2, 50, 51]

/-- Modelled from the spec: Parameter.depth_ln_depth (layering by number,
depth form, section 4.1).  Minimum depth of layer i is (i+1) * wmin / 3 and
every maximum depth is wmax / depth_factor. -/
def depth_ln_depth (wmin wmax : ℚ) (nlayers : ℕ) (depthFactor : ℚ) :
    List ℚ × List ℚ :=
  ((List.range nlayers).map (fun (i : ℕ) => ((i : ℚ) + 1) * wmin / 3),
   List.replicate nlayers (wmax / depthFactor))

/-- Modelled from the spec: Parameter.depth_ln_thickness (layering by
number, thickness form, section 4.1).  Every layer shares the thickness
bounds wmin / 3 and wmax / (2 * nlayers). -/
def depth_ln_thickness (wmin wmax : ℚ) (nlayers : ℕ) : List ℚ × List ℚ :=
  (List.replicate nlayers (wmin / 3),
   List.replicate nlayers (wmax / (2 * nlayers)))

/-- Modelled from the spec: the Parameter record (section 3), one physical
quantity per-layer search-space specification.  par_value holds the primary
scalar of the strategy (fixed value, layer count, or layering ratio) and
par_add_value the secondary scalar (thickness or increasing factor), per
the assertions of test_from_min_max. -/
structure Parameter where
  par_type : String
  par_value : Option ℚ
  par_add_value : Option ℚ
  lay_min : List ℚ
  lay_max : List ℚ
  par_min : List ℚ
  par_max : List ℚ
  par_rev : List Bool
deriving DecidableEq, Repr

/-- Modelled from the spec: the compact per-parameter spec tuples accepted
by Parameterization.from_min_max (section 4.3), as a tagged variant
(section 9 design note). -/
inductive PSpec where
  | FX (value : ℚ)
  | FTL (nlayers : ℕ) (thickness pmin pmax : ℚ) (prev : Bool)
  | LN (nlayers : ℕ) (pmin pmax : ℚ) (prev : Bool)
  | LNI (nlayers : ℕ) (factor pmin pmax : ℚ) (prev : Bool)
  | LR (lr pmin pmax : ℚ) (prev : Bool)
deriving DecidableEq, Repr

/-- Modelled from the spec: resolution of one spec tuple into a Parameter
inside from_min_max (section 4.3), with the shared wavelength range.  The
LNI branch follows the authoritative assertions of test_from_min_max
(src/test/test_parameterization.py lines 80-88): the third tuple element is
an increasing factor stored as par_add_value, minimum thickness is wmin/3
and maximum thickness wmax/2 for every layer (the spec prose in section 4.3
instead describes LNI as the depth form driven by a depth factor, which
those test assertions contradict).  The LR branch delegates to depth_lr
with the default depth factor 2 and broadcasts the scalar bounds and the
reversal flag to the derived layer count. -/
def resolveSpec (wmin wmax : ℚ) (fuel : ℕ) : PSpec → Option Parameter
  | .FX v => some ⟨"FX", some v, none, [], [], [v], [v], []⟩
  | .FTL n t pmin pmax rev =>
    some ⟨"FTL", some n, some t, List.replicate n t, List.replicate n t,
      List.replicate n pmin, List.replicate n pmax, List.replicate n rev⟩
  | .LN n pmin pmax rev =>
    some ⟨"LN", some n, none, (depth_ln_thickness wmin wmax n).1,
      (depth_ln_thickness wmin wmax n).2,
      List.replicate n pmin, List.replicate n pmax, List.replicate n rev⟩
  | .LNI n f pmin pmax rev =>
    some ⟨"LNI", some n, some f, List.replicate n (wmin / 3),
      List.replicate n (wmax / 2),
      List.replicate n pmin, List.replicate n pmax, List.replicate n rev⟩
  | .LR lr pmin pmax rev =>
    (depth_lr wmin wmax lr 2 fuel).map (fun p =>
      ⟨"LR", some lr, none, p.1, p.2,
       List.replicate p.1.length pmin, List.replicate p.1.length pmax,
       List.replicate p.1.length rev⟩)

/-- Modelled from the spec: the claimed reading of the LNI tuple (claim and
spec section 4.3 prose): third element a depth factor feeding the
depth-form layering-by-number discretizer. -/
def lni_claimed (wmin wmax : ℚ) (nlayers : ℕ) (depthFactor : ℚ) :
    List ℚ × List ℚ :=
  depth_ln_depth wmin wmax nlayers depthFactor

/-- Modelled from the spec: the Parameterization aggregate (section 3),
exactly four Parameters. -/
structure Parameterization where
  vp : Parameter
  pr : Parameter
  vs : Parameter
  rh : Parameter
deriving DecidableEq, Repr

/-- Modelled from the spec: Parameterization.from_min_max (section 4.3).
Resolves the four spec tuples against the shared wavelength range. -/
def from_min_max (vp pr vs rh : PSpec) (wmin wmax : ℚ) (fuel : ℕ) :
    Option Parameterization := do
  let vpP ← resolveSpec wmin wmax fuel vp
  let prP ← resolveSpec wmin wmax fuel pr
  let vsP ← resolveSpec wmin wmax fuel vs
  let rhP ← resolveSpec wmin wmax fuel rh
  return ⟨vpP, prP, vsP, rhP⟩

/-- Data of a DispersionSet as used by DispersionSuite
(src/swipp/dispersionsuite.py): an identifier (field name as spelled in the
source) and a misfit. -/
structure DispersionSetData where
  identifer : String
  misfit : ℚ
deriving DecidableEq, Repr

/-- A Python object handed to the DispersionSuite container: either a
DispersionSet instance or some other object (described by a string). -/
inductive PyObj where
  | dset (d : DispersionSetData)
  | other (descr : String)
deriving DecidableEq, Repr

/-- Whether the object is a DispersionSet instance. -/
def PyObj.isDSet : PyObj → Bool
  | .dset _ => true
  | _ => false

/-- DispersionSuite.check_input (src/swipp/dispersionsuite.py lines 37-47):
TypeError unless the object is an instance of the required set type. -/
def check_input (curveset : PyObj) : Except PyErr Unit :=
  if curveset.isDSet then .ok () else .error .typeError

/-- Container for DispersionSet objects
(src/swipp/dispersionsuite.py). -/
structure DispersionSuite where
  sets : List PyObj
deriving DecidableEq, Repr

/-- DispersionSuite constructor (lines 49-69): checks the input and starts
the sets list with the single given set. -/
def DispersionSuite.init (dispersionset : PyObj) :
    Except PyErr DispersionSuite :=
  match check_input dispersionset with
  | .error e => .error e
  | .ok _ => .ok ⟨[dispersionset]⟩

/-- DispersionSuite.append (lines 71-90): checks the input, then appends to
sets.  The pair returns the outcome together with the post-state; on a
raised TypeError the append line is never reached, so the state is the
unchanged receiver. -/
def DispersionSuite.append (s : DispersionSuite) (dispersionset : PyObj) :
    Except PyErr Unit × DispersionSuite :=
  match check_input dispersionset with
  | .error e => (.error e, s)
  | .ok _ => (.ok (), ⟨s.sets ++ [dispersionset]⟩)

/-- DispersionSuite.size (lines 92-94): the length of sets. -/
def DispersionSuite.size (s : DispersionSuite) : ℕ := s.sets.length

/-- Sequential appends of a list of objects, stopping at the first raised
error (helper for from_list, lines 183-185). -/
def DispersionSuite.appendAll (s : DispersionSuite) :
    List PyObj → Except PyErr DispersionSuite
  | [] => .ok s
  | d :: ds =>
    match s.append d with
    | (.error e, _) => .error e
    | (.ok _, s2) => s2.appendAll ds

/-- DispersionSuite.from_list (lines 162-186): constructs from the head of
the list and appends the rest; an empty list raises IndexError at the
dc_sets[0] access. -/
def DispersionSuite.from_list : List PyObj → Except PyErr DispersionSuite
  | [] => .error .indexError
  | d :: ds =>
    match DispersionSuite.init d with
    | .error e => .error e
    | .ok s => s.appendAll ds

/-- The container invariant: the sets list is nonempty and every stored
element is a DispersionSet instance. -/
def goodSuite (s : DispersionSuite) : Bool :=
  !s.sets.isEmpty && s.sets.all PyObj.isDSet

/-- The Parameterization that from_min_max produces at the
test_from_min_max input (LNI vp tuple with increasing factor 1.2). -/
def testParamzn : Parameterization :=
  ⟨⟨"LNI", some 2, some (6/5), [1/3, 1/3], [50, 50], [200, 200], [400, 400],
    [true, true]⟩,
   ⟨"LN", some 3, none, [1/3, 1/3, 1/3], [50/3, 50/3, 50/3],
    [1/5, 1/5, 1/5], [1/2, 1/2, 1/2], [false, false, false]⟩,
   ⟨"FTL", some 5, some 2, [2, 2, 2, 2, 2], [2, 2, 2, 2, 2],
    [100, 100, 100, 100, 100], [200, 200, 200, 200, 200],
    [true, true, true, true, true]⟩,
   ⟨"FX", some 2000, none, [], [], [2000], [2000], []⟩⟩

/-- The Parameterization that from_min_max produces at the second
test_from_min_max input, where the pr tuple is the layering-ratio spec
with lr = 3 (fuel 20). -/
def testParamznLR : Parameterization :=
  ⟨⟨"LNI", some 2, some (6/5), [1/3, 1/3], [50, 50], [200, 200], [400, 400],
    [true, true]⟩,
   ⟨"LR", some 3, none, [1/3, 1/2, 2, 13/2, 20, 50],
    [1/2, 2, 13/2, 20, 50, 51],
    [1/5, 1/5, 1/5, 1/5, 1/5, 1/5], [1/2, 1/2, 1/2, 1/2, 1/2, 1/2],
    [false, false, false, false, false, false]⟩,
   ⟨"FTL", some 5, some 2, [2, 2, 2, 2, 2], [2, 2, 2, 2, 2],
    [100, 100, 100, 100, 100], [200, 200, 200, 200, 200],
    [true, true, true, true, true]⟩,
   ⟨"FX", some 2000, none, [], [], [2000], [2000], []⟩⟩

/-- Helper: a list extended by two elements ends in the second one. -/
theorem getLast?_append_pair {α : Type} (l : List α) (a b : α) :
    (l ++ [a, b]).getLast? = some b := by
  induction l with
  | nil => rfl
  | cons x xs ih =>
    rw [List.cons_append, List.getLast?_cons, ih]
    rfl

/-- C1: For wmin = 1, wmax = 100 and depth_factor = 2, the layering-ratio
discretizer returns, for each lr in 1.4, 1.5, 2.0, 3.0 and 5.0, lay_min
and lay_max sequences matching the published reference boundary sequences
elementwise within absolute tolerance 0.051 (closeList also forces the
lengths to agree). -/
theorem depth_lr_matches_references :
    ((depth_lr 1 100 (7/5) 2 20).map (fun p =>
      closeList (51/1000) p.1 refLrMin14 && closeList (51/1000) p.2 refLrMax14)
      = some true)
    ∧ ((depth_lr 1 100 (3/2) 2 20).map (fun p =>
      closeList (51/1000) p.1 refLrMin15 && closeList (51/1000) p.2 refLrMax15)
      = some true)
    ∧ ((depth_lr 1 100 2 2 20).map (fun p =>
      closeList (51/1000) p.1 refLrMin20 && closeList (51/1000) p.2 refLrMax20)
      = some true)
    ∧ ((depth_lr 1 100 3 2 20).map (fun p =>
      closeList (51/1000) p.1 refLrMin30 && closeList (51/1000) p.2 refLrMax30)
      = some true)
    ∧ ((depth_lr 1 100 5 2 20).map (fun p =>
      closeList (51/1000) p.1 refLrMin50 && closeList (51/1000) p.2 refLrMax50)
      = some true) := by
  refine ⟨?_, ?_, ?_, ?_, ?_⟩ <;>
    norm_num [depth_lr, lrBottoms, closeList, refLrMin14, refLrMax14,
      refLrMin15, refLrMax15, refLrMin20, refLrMax20, refLrMin30, refLrMax30,
      refLrMin50, refLrMax50]

/-- C2, counterexample: at wmin = 1, wmax = 100, lr = 2, depth_factor = 2
the final lay_max entry is 51, not wmax + 1 = 101, so the terminal
half-space maximum depth is one unit beyond wmax / depth_factor, not one
unit beyond wmax. -/
theorem depth_lr_last_max_not_wmax_succ :
    ((depth_lr 1 100 2 2 20).map (fun p => p.2.getLast?) = some (some 51))
    ∧ (51 : ℚ) ≠ 100 + 1 := by
  constructor
  · norm_num [depth_lr, lrBottoms]
  · norm_num

/-- C2, amended: whenever the layering-ratio discretizer completes, the
final element of lay_max equals wmax / depth_factor + 1, one unit beyond
the maximum resolvable depth, for every input. -/
theorem depth_lr_last_max (wmin wmax lr depthFactor : ℚ) (fuel : ℕ)
    (mins maxs : List ℚ)
    (h : depth_lr wmin wmax lr depthFactor fuel = some (mins, maxs)) :
    maxs.getLast? = some (wmax / depthFactor + 1) := by
  rw [depth_lr, Option.map_eq_some'] at h
  obtain ⟨bottoms, -, hmk⟩ := h
  dsimp only at hmk
  split at hmk <;>
    · rw [Prod.mk.injEq] at hmk
      rw [← hmk.2, getLast?_append_pair]

/-- C2, witness for the amended theorem at the lr = 2 test input. -/
theorem depth_lr_last_max_witness :
    ([1/2, 3/2, 7/2, 15/2, 31/2, 63/2, 50, 51] : List ℚ).getLast?
      = some ((100 : ℚ) / 2 + 1) := by
  apply depth_lr_last_max 1 100 2 2 20 [1/3, 1/2, 3/2, 7/2, 15/2, 31/2, 63/2, 50]
  norm_num [depth_lr, lrBottoms]

/-- C3, counterexample: at the test_from_min_max input (LNI tuple with
nlayers = 2 and third element 1.2, wavelength range 1 to 100) the resolved
vp parameter has lay_min = [1/3, 1/3] and lay_max = [50, 50] as the test
asserts, while the claimed depth-factor reading would give lay_min =
[1/3, 2/3] and lay_max = [250/3, 250/3]. -/
theorem from_min_max_lni_depth_factor_refuted :
    ((from_min_max (.LNI 2 (6/5) 200 400 true) (.LN 3 (1/5) (1/2) false)
        (.FTL 5 2 100 200 true) (.FX 2000) 1 100 0).map
      (fun P => (P.vp.lay_min, P.vp.lay_max))
      = some ([1/3, 1/3], [50, 50]))
    ∧ lni_claimed 1 100 2 (6/5) = ([1/3, 2/3], [250/3, 250/3])
    ∧ ([1/3, 1/3] : List ℚ) ≠ [1/3, 2/3]
    ∧ ([50, 50] : List ℚ) ≠ [250/3, 250/3] := by
  refine ⟨?_, ?_, ?_, ?_⟩ <;>
    norm_num [from_min_max, resolveSpec, lni_claimed, depth_ln_depth,
      depth_ln_thickness, List.range_succ, List.replicate_succ]

/-- C3, amended: the third element of an LNI tuple is an increasing factor
stored as par_add_value; the resolved parameter is the thickness-form
increasing layering with lay_min = [wmin/3] * nlayers and lay_max =
[wmax/2] * nlayers, and the scalar bounds and reversal flag broadcast over
nlayers, as test_from_min_max asserts. -/
theorem from_min_max_lni_increasing (n : ℕ) (f pmin pmax : ℚ) (rev : Bool)
    (pr vs rh : PSpec) (wmin wmax : ℚ) (fuel : ℕ) (P : Parameterization)
    (h : from_min_max (.LNI n f pmin pmax rev) pr vs rh wmin wmax fuel
      = some P) :
    P.vp.par_type = "LNI" ∧ P.vp.par_value = some (n : ℚ)
    ∧ P.vp.par_add_value = some f
    ∧ P.vp.lay_min = List.replicate n (wmin / 3)
    ∧ P.vp.lay_max = List.replicate n (wmax / 2)
    ∧ P.vp.par_min = List.replicate n pmin
    ∧ P.vp.par_max = List.replicate n pmax
    ∧ P.vp.par_rev = List.replicate n rev := by
  simp only [from_min_max, resolveSpec, Option.bind_eq_bind, bind,
    Option.bind_eq_some, Option.pure_def, Option.some.injEq] at h
  obtain ⟨vpP, hvp, prP, hpr, vsP, hvs, rhP, hrh, hP⟩ := h
  subst hvp
  subst hP
  simp

/-- C3, witness for the amended theorem at the test_from_min_max input. -/
theorem from_min_max_lni_increasing_witness :
    testParamzn.vp.par_type = "LNI"
    ∧ testParamzn.vp.par_value = some ((2 : ℕ) : ℚ)
    ∧ testParamzn.vp.par_add_value = some (6/5)
    ∧ testParamzn.vp.lay_min = List.replicate 2 ((1 : ℚ) / 3)
    ∧ testParamzn.vp.lay_max = List.replicate 2 ((100 : ℚ) / 2)
    ∧ testParamzn.vp.par_min = List.replicate 2 (200 : ℚ)
    ∧ testParamzn.vp.par_max = List.replicate 2 (400 : ℚ)
    ∧ testParamzn.vp.par_rev = List.replicate 2 true :=
  from_min_max_lni_increasing 2 (6/5) 200 400 true (.LN 3 (1/5) (1/2) false)
    (.FTL 5 2 100 200 true) (.FX 2000) 1 100 0 testParamzn
    (by norm_num [from_min_max, resolveSpec, depth_ln_thickness, testParamzn,
      List.replicate_succ])

/-- C4: the depth-form layering-by-number discretizer gives
lay_min = [1/3, 2/3, 1, 4/3, 5/3] and lay_max = [50, 50, 50, 50, 50] at
wmin = 1, wmax = 100, nlayers = 5, depth_factor = 2; in general entry i of
lay_min is (i + 1) * wmin / 3, every lay_max entry is wmax / depth_factor,
and both lists have length nlayers. -/
theorem depth_ln_depth_values :
    (depth_ln_depth 1 100 5 2
      = ([1/3, 2/3, 1, 4/3, 5/3], [50, 50, 50, 50, 50]))
    ∧ ∀ (wmin wmax : ℚ) (n : ℕ) (df : ℚ) (i : ℕ), i < n →
      (depth_ln_depth wmin wmax n df).1.length = n ∧
      (depth_ln_depth wmin wmax n df).2.length = n ∧
      (depth_ln_depth wmin wmax n df).1[i]? = some (((i : ℚ) + 1) * wmin / 3) ∧
      (depth_ln_depth wmin wmax n df).2[i]? = some (wmax / df) := by
  constructor
  · norm_num [depth_ln_depth, List.range_succ, List.replicate_succ]
  · intro wmin wmax n df i hi
    refine ⟨?_, ?_, ?_, ?_⟩
    · simp only [depth_ln_depth, List.length_map, List.length_range]
    · simp only [depth_ln_depth, List.length_replicate]
    · simp only [depth_ln_depth, List.getElem?_map, List.getElem?_range, hi,
        if_pos, Option.map_some']
    · simp only [depth_ln_depth, List.getElem?_replicate, hi, if_pos]

/-- C4, witness for the indexwise part at layer 2 of the test input. -/
theorem depth_ln_depth_values_witness :
    (depth_ln_depth 1 100 5 2).1.length = 5 ∧
    (depth_ln_depth 1 100 5 2).2.length = 5 ∧
    (depth_ln_depth 1 100 5 2).1[2]? = some ((((2 : ℕ) : ℚ) + 1) * 1 / 3) ∧
    (depth_ln_depth 1 100 5 2).2[2]? = some ((100 : ℚ) / 2) :=
  depth_ln_depth_values.2 1 100 5 2 2 (by norm_num)

/-- C5: an LR spec tuple handed to from_min_max delegates to depth_lr with
the shared wavelength range and the default depth factor 2: the resolved
pr parameter carries exactly the lay_min and lay_max that depth_lr returns
directly, and the scalar par_min, par_max, par_rev broadcast to lists of
the derived layer count. -/
theorem from_min_max_lr_delegates (lr pmin pmax : ℚ) (rev : Bool)
    (vp vs rh : PSpec) (wmin wmax : ℚ) (fuel : ℕ) (mins maxs : List ℚ)
    (P : Parameterization)
    (hlr : depth_lr wmin wmax lr 2 fuel = some (mins, maxs))
    (h : from_min_max vp (.LR lr pmin pmax rev) vs rh wmin wmax fuel
      = some P) :
    P.pr.par_type = "LR" ∧ P.pr.par_value = some lr
    ∧ P.pr.lay_min = mins ∧ P.pr.lay_max = maxs
    ∧ P.pr.par_min = List.replicate mins.length pmin
    ∧ P.pr.par_max = List.replicate mins.length pmax
    ∧ P.pr.par_rev = List.replicate mins.length rev
    ∧ P.pr.par_min.length = mins.length
    ∧ P.pr.par_max.length = mins.length
    ∧ P.pr.par_rev.length = mins.length := by
  simp only [from_min_max, resolveSpec, Option.bind_eq_bind, bind,
    Option.bind_eq_some, Option.pure_def, Option.some.injEq] at h
  obtain ⟨vpP, hvp, prP, hpr, vsP, hvs, rhP, hrh, hP⟩ := h
  rw [hlr] at hpr
  simp only [Option.map_some', Option.some.injEq] at hpr
  subst hP
  subst hpr
  simp

/-- C5, witness at the second test_from_min_max input (lr = 3). -/
theorem from_min_max_lr_delegates_witness :
    testParamznLR.pr.par_type = "LR" ∧ testParamznLR.pr.par_value = some 3
    ∧ testParamznLR.pr.lay_min = [1/3, 1/2, 2, 13/2, 20, 50]
    ∧ testParamznLR.pr.lay_max = [1/2, 2, 13/2, 20, 50, 51]
    ∧ testParamznLR.pr.par_min
      = List.replicate ([1/3, 1/2, 2, 13/2, 20, 50] : List ℚ).length (1/5)
    ∧ testParamznLR.pr.par_max
      = List.replicate ([1/3, 1/2, 2, 13/2, 20, 50] : List ℚ).length (1/2)
    ∧ testParamznLR.pr.par_rev
      = List.replicate ([1/3, 1/2, 2, 13/2, 20, 50] : List ℚ).length false
    ∧ testParamznLR.pr.par_min.length
      = ([1/3, 1/2, 2, 13/2, 20, 50] : List ℚ).length
    ∧ testParamznLR.pr.par_max.length
      = ([1/3, 1/2, 2, 13/2, 20, 50] : List ℚ).length
    ∧ testParamznLR.pr.par_rev.length
      = ([1/3, 1/2, 2, 13/2, 20, 50] : List ℚ).length :=
  from_min_max_lr_delegates 3 (1/5) (1/2) false
    (.LNI 2 (6/5) 200 400 true) (.FTL 5 2 100 200 true) (.FX 2000) 1 100 20
    [1/3, 1/2, 2, 13/2, 20, 50] [1/2, 2, 13/2, 20, 50, 51] testParamznLR
    (by norm_num [depth_lr, lrBottoms])
    (by norm_num [from_min_max, resolveSpec, depth_lr, lrBottoms,
      depth_ln_thickness, testParamznLR, List.replicate_succ])

/-- C6: check_wavelengths returns the ascending pair of the two numeric
contents for positive real-number arguments in either order, raises
TypeError when either argument is not a real number (booleans, strings and
tuples included), and raises ValueError when both are real numbers but
either is nonpositive. -/
theorem check_wavelengths_contract :
    (∀ v w : PyVal, v.isRealNumber = true → w.isRealNumber = true →
      0 < v.toQ → 0 < w.toQ →
      check_wavelengths v w = .ok (min v.toQ w.toQ, max v.toQ w.toQ))
    ∧ (∀ v w : PyVal, v.isRealNumber = false ∨ w.isRealNumber = false →
      check_wavelengths v w = .error .typeError)
    ∧ (∀ v w : PyVal, v.isRealNumber = true → w.isRealNumber = true →
      (v.toQ ≤ 0 ∨ w.toQ ≤ 0) →
      check_wavelengths v w = .error .valueError) := by
  refine ⟨?_, ?_, ?_⟩
  · intro v w hv hw hv0 hw0
    simp [check_wavelengths, hv, hw, not_le.mpr hv0, not_le.mpr hw0]
  · intro v w hvw
    rcases hvw with hv | hw
    · simp [check_wavelengths, hv]
    · simp [check_wavelengths, hw]
  · intro v w hv hw hle
    simp [check_wavelengths, hv, hw, hle]

/-- C6, witness: ascending order at (1, 100), TypeError on a boolean,
ValueError on a zero wavelength. -/
theorem check_wavelengths_contract_witness :
    check_wavelengths (.int 1) (.int 100)
      = .ok (min (PyVal.int 1).toQ (PyVal.int 100).toQ,
             max (PyVal.int 1).toQ (PyVal.int 100).toQ)
    ∧ check_wavelengths (.int 1) (.bool true) = .error .typeError
    ∧ check_wavelengths (.int 1) (.int 0) = .error .valueError :=
  ⟨check_wavelengths_contract.1 (.int 1) (.int 100) rfl rfl
      (by norm_num [PyVal.toQ]) (by norm_num [PyVal.toQ]),
   check_wavelengths_contract.2.1 (.int 1) (.bool true) (Or.inr rfl),
   check_wavelengths_contract.2.2 (.int 1) (.int 0) rfl rfl
      (Or.inr (by norm_num [PyVal.toQ]))⟩

/-- C7: for every integer layer count at least 1 and positive thickness,
the fixed-thickness-layers discretizer returns lay_min and lay_max both
equal to the thickness repeated nlayers times. -/
theorem depth_ftl_replicates (n : ℤ) (t : ℚ) (h1 : 1 ≤ n) (h2 : 0 < t) :
    depth_ftl (.int n) (.float t)
      = .ok (List.replicate n.toNat t, List.replicate n.toNat t)
    ∧ (List.replicate n.toNat t).length = n.toNat := by
  constructor
  · simp [depth_ftl, check_nlayers, check_positive, PyVal.isRealNumber,
      PyVal.toQ, not_lt.mpr h1, not_le.mpr h2]
  · simp

/-- C7, witness at nlayers = 3, thickness = 2. -/
theorem depth_ftl_replicates_witness :
    depth_ftl (.int 3) (.float 2)
      = .ok (List.replicate (3 : ℤ).toNat (2 : ℚ),
             List.replicate (3 : ℤ).toNat (2 : ℚ))
    ∧ (List.replicate (3 : ℤ).toNat (2 : ℚ)).length = (3 : ℤ).toNat :=
  depth_ftl_replicates 3 2 (by norm_num) (by norm_num)

/-- C8: the layer-count check raises TypeError on every value that is not
a plain non-boolean integer and ValueError on integers below 1; the
layering-ratio check raises TypeError on booleans and non-numerics and
ValueError on numeric values at most 1.  In the Except embedding a raised
error carries no partial result. -/
theorem validator_error_contract :
    (∀ v : PyVal, v.isInt = false → check_nlayers v = .error .typeError)
    ∧ (∀ n : ℤ, n < 1 → check_nlayers (.int n) = .error .valueError)
    ∧ (∀ v : PyVal, v.isRealNumber = false → check_lr v = .error .typeError)
    ∧ (∀ v : PyVal, v.isRealNumber = true → v.toQ ≤ 1 →
        check_lr v = .error .valueError) := by
  refine ⟨?_, ?_, ?_, ?_⟩
  · intro v hv
    cases v <;> simp [check_nlayers, PyVal.isInt] at hv ⊢
  · intro n hn
    simp [check_nlayers, hn]
  · intro v hv
    simp [check_lr, hv]
  · intro v hv hle
    simp [check_lr, hv, hle]

/-- C8, witness: a string and a boolean layer count, a zero layer count, a
boolean layering ratio and the ratio 1.0 all raise as specified. -/
theorem validator_error_contract_witness :
    check_nlayers (.str "1") = .error .typeError
    ∧ check_nlayers (.int 0) = .error .valueError
    ∧ check_lr (.bool true) = .error .typeError
    ∧ check_lr (.float 1) = .error .valueError :=
  ⟨validator_error_contract.1 (.str "1") rfl,
   validator_error_contract.2.1 0 (by norm_num),
   validator_error_contract.2.2.1 (.bool true) rfl,
   validator_error_contract.2.2.2 (.float 1) rfl (by norm_num [PyVal.toQ])⟩

/-- Helper for C9: appending a list of DispersionSet objects one by one
preserves the container invariant. -/
theorem appendAll_good (l : List PyObj) :
    ∀ (s s2 : DispersionSuite), goodSuite s = true →
      DispersionSuite.appendAll s l = .ok s2 → goodSuite s2 = true := by
  induction l with
  | nil =>
    intro s s2 hs h
    rw [DispersionSuite.appendAll] at h
    cases h
    exact hs
  | cons d ds ih =>
    intro s s2 hs h
    rw [DispersionSuite.appendAll] at h
    rcases hd : s.append d with ⟨u, s3⟩
    rw [hd] at h
    cases u with
    | error e => exact absurd h (by simp)
    | ok _ =>
      refine ih s3 s2 ?_ h
      rw [DispersionSuite.append, check_input] at hd
      by_cases hds : d.isDSet = true
      · rw [if_pos hds] at hd
        cases hd
        simp only [goodSuite, Bool.and_eq_true, List.all_append] at hs ⊢
        simp [hs.1, hs.2, hds]
      · simp [hds] at hd

/-- C9: a DispersionSuite built by the constructor satisfies the container
invariant (nonempty sets, every element a DispersionSet); a successful
append preserves it; the constructor and append raise TypeError on a
non-DispersionSet argument, a failed append leaving the state unchanged;
and from_list establishes the invariant. -/
theorem dispersion_suite_invariant :
    (∀ (d : PyObj) (s : DispersionSuite),
      DispersionSuite.init d = .ok s → goodSuite s = true)
    ∧ (∀ (s : DispersionSuite) (d : PyObj) (s2 : DispersionSuite),
      goodSuite s = true → s.append d = (.ok (), s2) → goodSuite s2 = true)
    ∧ (∀ d : PyObj, d.isDSet = false →
      DispersionSuite.init d = .error .typeError
      ∧ ∀ s : DispersionSuite, s.append d = (.error .typeError, s))
    ∧ (∀ (l : List PyObj) (s : DispersionSuite),
      DispersionSuite.from_list l = .ok s → goodSuite s = true) := by
  refine ⟨?_, ?_, ?_, ?_⟩
  · intro d s h
    rw [DispersionSuite.init, check_input] at h
    by_cases hds : d.isDSet = true
    · rw [if_pos hds] at h
      cases h
      simp [goodSuite, hds]
    · simp [hds] at h
  · intro s d s2 hs h
    rw [DispersionSuite.append, check_input] at h
    by_cases hds : d.isDSet = true
    · rw [if_pos hds] at h
      rw [Prod.mk.injEq] at h
      rw [← h.2]
      simp only [goodSuite, Bool.and_eq_true, List.all_append] at hs ⊢
      simp [hs.1, hs.2, hds]
    · simp [hds] at h
  · intro d hds
    constructor
    · simp [DispersionSuite.init, check_input, hds]
    · intro s
      simp [DispersionSuite.append, check_input, hds]
  · intro l s h
    cases l with
    | nil => simp [DispersionSuite.from_list] at h
    | cons d ds =>
      rw [DispersionSuite.from_list] at h
      rcases hi : DispersionSuite.init d with e | s0
      · rw [hi] at h
        exact absurd h (by simp)
      · rw [hi] at h
        refine appendAll_good ds s0 s ?_ h
        rw [DispersionSuite.init, check_input] at hi
        by_cases hds : d.isDSet = true
        · rw [if_pos hds] at hi
          cases hi
          simp [goodSuite, hds]
        · simp [hds] at hi

/-- C9, witness: the invariant and the error behaviour at concrete sets. -/
theorem dispersion_suite_invariant_witness :
    goodSuite ⟨[PyObj.dset ⟨"m0", 1⟩]⟩ = true
    ∧ goodSuite ⟨[PyObj.dset ⟨"m0", 1⟩, PyObj.dset ⟨"m1", 2⟩]⟩ = true
    ∧ DispersionSuite.init (PyObj.other "curve") = .error .typeError
    ∧ DispersionSuite.append ⟨[PyObj.dset ⟨"m0", 1⟩]⟩ (PyObj.other "curve")
      = (.error .typeError, ⟨[PyObj.dset ⟨"m0", 1⟩]⟩)
    ∧ goodSuite ⟨[PyObj.dset ⟨"m0", 1⟩, PyObj.dset ⟨"m1", 2⟩,
        PyObj.dset ⟨"m2", 3⟩]⟩ = true := by
  have hbad := dispersion_suite_invariant.2.2.1 (PyObj.other "curve") rfl
  exact ⟨dispersion_suite_invariant.1 (PyObj.dset ⟨"m0", 1⟩)
      ⟨[PyObj.dset ⟨"m0", 1⟩]⟩ rfl,
    dispersion_suite_invariant.2.1 ⟨[PyObj.dset ⟨"m0", 1⟩]⟩
      (PyObj.dset ⟨"m1", 2⟩)
      ⟨[PyObj.dset ⟨"m0", 1⟩, PyObj.dset ⟨"m1", 2⟩]⟩ rfl rfl,
    hbad.1,
    hbad.2 ⟨[PyObj.dset ⟨"m0", 1⟩]⟩,
    dispersion_suite_invariant.2.2.2
      [PyObj.dset ⟨"m0", 1⟩, PyObj.dset ⟨"m1", 2⟩, PyObj.dset ⟨"m2", 3⟩]
      ⟨[PyObj.dset ⟨"m0", 1⟩, PyObj.dset ⟨"m1", 2⟩,
        PyObj.dset ⟨"m2", 3⟩]⟩ rfl⟩

/-- C10: a successful append returns ok, grows size by exactly one, places
the new set last, and leaves every previously stored element unchanged at
its original position. -/
theorem append_effect (s : DispersionSuite) (d : PyObj)
    (h : d.isDSet = true) :
    (s.append d).1 = .ok ()
    ∧ (s.append d).2.size = s.size + 1
    ∧ (s.append d).2.sets.getLast? = some d
    ∧ ∀ i : ℕ, i < s.size → (s.append d).2.sets[i]? = s.sets[i]? := by
  rw [DispersionSuite.append, check_input, if_pos h]
  refine ⟨rfl, by simp [DispersionSuite.size], by simp, ?_⟩
  intro i hi
  simp only [DispersionSuite.size] at hi
  simp [List.getElem?_append, hi]

/-- C10, witness: appending a second set to a one-element suite. -/
theorem append_effect_witness :
    (DispersionSuite.append ⟨[PyObj.dset ⟨"m0", 1⟩]⟩
        (PyObj.dset ⟨"m1", 2⟩)).1 = .ok ()
    ∧ (DispersionSuite.append ⟨[PyObj.dset ⟨"m0", 1⟩]⟩
        (PyObj.dset ⟨"m1", 2⟩)).2.size
      = DispersionSuite.size ⟨[PyObj.dset ⟨"m0", 1⟩]⟩ + 1
    ∧ (DispersionSuite.append ⟨[PyObj.dset ⟨"m0", 1⟩]⟩
        (PyObj.dset ⟨"m1", 2⟩)).2.sets.getLast? = some (PyObj.dset ⟨"m1", 2⟩)
    ∧ (DispersionSuite.append ⟨[PyObj.dset ⟨"m0", 1⟩]⟩
        (PyObj.dset ⟨"m1", 2⟩)).2.sets[0]?
      = (⟨[PyObj.dset ⟨"m0", 1⟩]⟩ : DispersionSuite).sets[0]? := by
  have h := append_effect ⟨[PyObj.dset ⟨"m0", 1⟩]⟩ (PyObj.dset ⟨"m1", 2⟩) rfl
  exact ⟨h.1, h.2.1, h.2.2.1, h.2.2.2 0 (by decide)⟩
